import Mathlib

/-!
Shallow embedding of the IFTMIN EDI parser in src/streamlit_app.py
(class IFTMINParser) and proofs about the claims of its specification.

Python strings become Lean `String`, Python lists become Lean `List`,
Python dicts with a fixed key set become structures whose fields are
`Option`-valued (field = `none` means the key is absent).  A Python
statement that can raise (an unguarded `parts[i]`) is modelled with
`Option`: the whole parse returns `none` exactly when the Python code
would propagate an exception.
-/

namespace IFTMIN

/-- The apostrophe character, the EDI segment terminator used by
`data.replace` in `parse_iftmin`. -/
def apos : Char := Char.ofNat 39

/-- Python `s.split(c)` for a single-character separator, on the
character list: splits at every occurrence of `c`, keeping empty
pieces, and returns `[[]]` on the empty list. -/
def splitChar (c : Char) : List Char → List (List Char)
  | [] => [[]]
  | x :: xs =>
    let r := splitChar c xs
    if x = c then [] :: r else (x :: r.headD []) :: r.tail

/-- Python `s.split(c)` for a single-character separator. -/
def pySplit (c : Char) (s : String) : List String :=
  (splitChar c s.data).map String.mk

/-- Python `s.startswith(p)`. -/
def pyStartsWith (s p : String) : Bool :=
  p.data.isPrefixOf s.data

/-- Python `c in s` for a single character `c`. -/
def pyContains (s : String) (c : Char) : Bool :=
  s.data.contains c

/-- Python slice `s[a:b]` over characters (total, never raises). -/
def pySlice (s : String) (a b : Nat) : String :=
  String.mk ((s.data.drop a).take (b - a))

/-- Tokenizer of `parse_iftmin`: replace every apostrophe by a newline,
split on newlines, and keep only the segments that are non-blank after
stripping (Python `if segment.strip()`). -/
def tokenize (data : String) : List String :=
  ((splitChar '\n' (data.data.map fun ch => if ch = apos then '\n' else ch)).map
      String.mk).filter
    (fun seg => seg.data.any fun ch => !ch.isWhitespace)

/-- Embedding of `IFTMINParser._format_date`.  The `try` in the source
is dead code: Python string slicing never raises, so the function is the
plain conditional below. -/
def format_date (date_str : String) : String :=
  if 8 ≤ date_str.length then
    pySlice date_str 6 8 ++ "." ++ pySlice date_str 4 6 ++ "." ++ pySlice date_str 0 4
  else date_str

/-- Address record built by `IFTMINParser._parse_address`; a field is
`none` exactly when the Python dict lacks the key. -/
structure Address where
  name : Option String := none
  street : Option String := none
  city : Option String := none
  district : Option String := none
  postal_code : Option String := none
  country : Option String := none
deriving DecidableEq

/-- Embedding of `IFTMINParser._parse_address`.  Each key is set only
when the field list is long enough; `parts[4] if parts[4] else
default_name` is the empty-string test on field 5; `replace` on field 6
turns the secondary delimiter into spaces. -/
def parse_address (parts : List String) (default_name : String := "") : Address :=
  { name :=
      if 5 ≤ parts.length then
        some (if parts.getD 4 "" = "" then default_name else parts.getD 4 "")
      else none,
    street :=
      if 6 ≤ parts.length then
        some (String.mk ((parts.getD 5 "").data.map fun ch => if ch = ':' then ' ' else ch))
      else none,
    city := if 7 ≤ parts.length then some (parts.getD 6 "") else none,
    district := if 8 ≤ parts.length then some (parts.getD 7 "") else none,
    postal_code := if 9 ≤ parts.length then some (parts.getD 8 "") else none,
    country := if 10 ≤ parts.length then some (parts.getD 9 "") else none }

/-- Header section of the result dict. -/
structure Header where
  sender : Option String := none
  receiver : Option String := none
  doc_number : Option String := none
  message_date : Option String := none
  currency : Option String := none
deriving DecidableEq

/-- One loop iteration of `IFTMINParser._parse_header`.  The `UNB`
branch reads `parts[2]` and `parts[3]` without a length guard, so it is
the one place where the Python code can raise `IndexError`; that raise
is modelled as `none`.  The `DTM+9` access `parts[1]` is also written
with `Option`, although the branch guard makes it unreachable. -/
def headerStep (h : Header) (seg : String) : Option Header :=
  if pyStartsWith seg "UNB" then
    let parts := pySplit '+' seg
    match parts.get? 2, parts.get? 3 with
    | some p2, some p3 =>
        some { h with
          sender := some (if pyContains p2 ':' then (pySplit ':' p2).headD "" else p2),
          receiver := some (if pyContains p3 ':' then (pySplit ':' p3).headD "" else p3) }
    | _, _ => none
  else if pyStartsWith seg "BGM" then
    let parts := pySplit '+' seg
    some { h with doc_number := some (if 2 < parts.length then parts.getD 2 "" else "") }
  else if pyStartsWith seg "DTM+9" then
    let parts := pySplit '+' seg
    match parts.get? 1 with
    | some p1 =>
        let date_str := if pyContains p1 ':' then (pySplit ':' p1).getD 1 "" else p1
        some { h with message_date := some (format_date date_str) }
    | none => none
  else if pyStartsWith seg "CUX" then
    let parts := pySplit '+' seg
    if 2 < parts.length then some { h with currency := some (parts.getD 2 "") } else some h
  else some h

/-- Embedding of `IFTMINParser._parse_header`. -/
def parse_header (segs : List String) : Option Header :=
  segs.foldlM headerStep {}

/-- Parties section of the result dict. -/
structure Parties where
  shipper : Option Address := none
  invoicee : Option Address := none
  node_id : Option String := none
deriving DecidableEq

/-- One loop iteration of `IFTMINParser._parse_parties`. -/
def partiesStep (ps : Parties) (seg : String) : Parties :=
  if pyStartsWith seg "NAD+SF" then
    { ps with shipper := some (parse_address (pySplit '+' seg) "WTAM") }
  else if pyStartsWith seg "NAD+IV" then
    { ps with invoicee := some (parse_address (pySplit '+' seg) "AMAZON EU SARL") }
  else if pyStartsWith seg "LOC+198" then
    let parts := pySplit '+' seg
    { ps with node_id := some (if 2 < parts.length then parts.getD 2 "" else "") }
  else ps

/-- Embedding of `IFTMINParser._parse_parties`. -/
def parse_parties (segs : List String) : Parties :=
  segs.foldl partiesStep {}

/-- Shipment record built by `IFTMINParser._parse_shipments`; a field
is `none` exactly when the Python dict lacks the key. -/
structure Shipment where
  total_packages : Option String := none
  consignee : Option Address := none
  tracking_number : Option String := none
  order_id : Option String := none
  phone : Option String := none
  delivery_date : Option String := none
  weight : Option String := none
  dimensions : Option String := none
  items : Option (List String) := none
deriving DecidableEq

/-- Python dict truthiness of the shipment accumulator: an empty dict
is falsy, so `if current_shipment:` tests that some key is present. -/
def shipEmpty (s : Shipment) : Bool :=
  s.total_packages.isNone && s.consignee.isNone && s.tracking_number.isNone &&
  s.order_id.isNone && s.phone.isNone && s.delivery_date.isNone &&
  s.weight.isNone && s.dimensions.isNone && s.items.isNone

/-- Condition of the shipment-opening branch of `_parse_shipments`. -/
def isOpenSeg (seg : String) : Bool :=
  pyStartsWith seg "GID+1" || pyStartsWith seg "GID+2"

/-- The fresh accumulator built by the `GID` branch: `current_shipment
= \x7b\x7d` followed by the guarded `total_packages` seeding. -/
def openShip (seg : String) : Shipment :=
  let parts := pySplit '+' seg
  if 2 < parts.length then
    { total_packages := some ((pySplit ':' (parts.getD 2 "")).headD "") }
  else {}

/-- The non-`GID` part of the `elif` ladder of `_parse_shipments`,
acting on the pair (current shipment accumulator, item accumulator).
Unguarded accesses (`parts[1]` under `DTM+17`, `parts[2]` under
`DIM+2+CMT`) are written with `getD`: the branch prefix contains enough
separators for the index to exist, so the default is never used. -/
def shipStep (seg : String) (st : Shipment × List String) : Shipment × List String :=
  let cur := st.1
  let items := st.2
  if pyStartsWith seg "NAD+CN" then
    ({ cur with consignee := some (parse_address (pySplit '+' seg)) }, items)
  else if pyStartsWith seg "RFF+CR" then
    let parts := pySplit '+' seg
    ({ cur with tracking_number := some (if 2 < parts.length then parts.getD 2 "" else "") },
     items)
  else if pyStartsWith seg "RFF+TB" then
    let parts := pySplit '+' seg
    ({ cur with order_id := some (if 2 < parts.length then parts.getD 2 "" else "") }, items)
  else if pyStartsWith seg "RFF+TE" then
    let parts := pySplit '+' seg
    ({ cur with phone := some (if 2 < parts.length then parts.getD 2 "" else "") }, items)
  else if pyStartsWith seg "DTM+17" then
    let parts := pySplit '+' seg
    let p1 := parts.getD 1 ""
    let date_str := if pyContains p1 ':' then (pySplit ':' p1).getD 1 "" else p1
    ({ cur with delivery_date := some (format_date date_str) }, items)
  else if pyStartsWith seg "MEA+WX+B+KG" then
    let parts := pySplit '+' seg
    ({ cur with weight := some (if 3 < parts.length then parts.getD 3 "" else "") }, items)
  else if pyStartsWith seg "DIM+2+CMT" then
    let parts := pySplit '+' seg
    let p2 := parts.getD 2 ""
    let dims := if pyContains p2 ':' then (pySplit ':' p2).drop 1 else []
    let dimStr := if dims.isEmpty then "" else String.intercalate "x" dims ++ " cm"
    ({ cur with dimensions := some dimStr }, items)
  else if pyStartsWith seg "RFF+VP" then
    let parts := pySplit '+' seg
    (cur, if 2 < parts.length then items ++ [parts.getD 2 ""] else items)
  else st

/-- The close of a shipment: `current_shipment[ \x7bitems\x7d ] = items.copy()`
followed by the append. -/
def flushShip (cur : Shipment) (items : List String) : Shipment :=
  { cur with items := some items }

/-- The loop of `IFTMINParser._parse_shipments` together with its
trailing flush.  On a `GID+1`/`GID+2` segment the previous accumulator
is appended only if it is truthy, and the item accumulator is reset
only in that same guarded block, exactly as in the source. -/
def shipGo : List String → Shipment → List String → List Shipment
  | [], cur, items => if shipEmpty cur then [] else [flushShip cur items]
  | seg :: rest, cur, items =>
    if isOpenSeg seg then
      (if shipEmpty cur then [] else [flushShip cur items]) ++
        shipGo rest (openShip seg) (if shipEmpty cur then items else [])
    else
      shipGo rest (shipStep seg (cur, items)).1 (shipStep seg (cur, items)).2

/-- Embedding of `IFTMINParser._parse_shipments`. -/
def parse_shipments (segs : List String) : List Shipment :=
  shipGo segs {} []

/-- Summary section of the result dict. -/
structure SummarySec where
  total_packages : Option String := none
  total_shipments : Option String := none
deriving DecidableEq

/-- One loop iteration of `IFTMINParser._parse_summary`. -/
def summaryStep (sm : SummarySec) (seg : String) : SummarySec :=
  if pyStartsWith seg "CNT+2" then
    let parts := pySplit '+' seg
    let p1 := parts.getD 1 ""
    let v := if pyContains p1 ':' then (pySplit ':' p1).getD 1 "" else ""
    { sm with total_packages := some v }
  else if pyStartsWith seg "CNT+8" then
    let parts := pySplit '+' seg
    let p1 := parts.getD 1 ""
    let v := if pyContains p1 ':' then (pySplit ':' p1).getD 1 "" else ""
    { sm with total_shipments := some v }
  else sm

/-- Embedding of `IFTMINParser._parse_summary`. -/
def parse_summary (segs : List String) : SummarySec :=
  segs.foldl summaryStep {}

/-- The result dict of `IFTMINParser.parse_iftmin`. -/
structure Doc where
  header : Header
  parties : Parties
  shipments : List Shipment
  summary : SummarySec
deriving DecidableEq

/-- Embedding of `IFTMINParser.parse_iftmin`: tokenize, then run the
four extractor passes.  Only the header pass can raise (the unguarded
`UNB` accesses), which aborts the whole parse, hence the `Option`. -/
def parse_iftmin (data : String) : Option Doc :=
  let segs := tokenize data
  match parse_header segs with
  | none => none
  | some h =>
      some { header := h, parties := parse_parties segs,
             shipments := parse_shipments segs, summary := parse_summary segs }

/-- Number of segments recognized as shipment-opening by the
aggregator. -/
def openCount (segs : List String) : Nat :=
  (segs.filter isOpenSeg).length

/-- Condition for a segment to be handled by one of the non-`GID`
branches of the `_parse_shipments` ladder. -/
def isShipBodySeg (seg : String) : Bool :=
  pyStartsWith seg "NAD+CN" || pyStartsWith seg "RFF+CR" || pyStartsWith seg "RFF+TB" ||
  pyStartsWith seg "RFF+TE" || pyStartsWith seg "DTM+17" ||
  pyStartsWith seg "MEA+WX+B+KG" || pyStartsWith seg "DIM+2+CMT" ||
  pyStartsWith seg "RFF+VP"

/-- Specification-side state machine of spec section 4.4, restricted to
the assignment of item identifiers to shipments: the state is `none`
when no shipment is open and `some acc` when one is open with item
accumulator `acc`; every opening segment closes the open shipment, item
references are dropped while no shipment is open, and the open shipment
is flushed at end of stream. -/
def specItemLists : List String → Option (List String) → List (List String)
  | [], none => []
  | [], some acc => [acc]
  | seg :: rest, st =>
    if isOpenSeg seg then
      (match st with | none => [] | some acc => [acc]) ++ specItemLists rest (some [])
    else if pyStartsWith seg "RFF+VP" then
      match st with
      | none => specItemLists rest none
      | some acc =>
          let parts := pySplit '+' seg
          specItemLists rest
            (some (if 2 < parts.length then acc ++ [parts.getD 2 ""] else acc))
    else specItemLists rest st

/-- Two distinct prefixes of a common string: if neither of `p`, `q` is
a prefix of the other, no string starts with both. -/
lemma pyStartsWith_excl (s p q : String) (h : pyStartsWith s p = true)
    (hpq : pyStartsWith p q = false) (hqp : pyStartsWith q p = false) :
    pyStartsWith s q = false := by
  unfold pyStartsWith at *
  by_contra hq
  rw [Bool.not_eq_false] at hq
  rw [List.isPrefixOf_iff_prefix] at h hq
  rcases le_total p.data.length q.data.length with hl | hl
  · have hpfx : p.data <+: q.data := List.prefix_of_prefix_length_le h hq hl
    rw [← List.isPrefixOf_iff_prefix] at hpfx
    simp [hpfx] at hqp
  · have hpfx : q.data <+: p.data := List.prefix_of_prefix_length_le hq h hl
    rw [← List.isPrefixOf_iff_prefix] at hpfx
    simp [hpfx] at hpq

lemma shipEmpty_default : shipEmpty {} = true := rfl

set_option maxHeartbeats 1000000 in
lemma shipStep_fst_nonempty (seg : String) (cur : Shipment) (items : List String)
    (h : shipEmpty cur = false) : shipEmpty (shipStep seg (cur, items)).1 = false := by
  simp only [shipStep]
  split_ifs <;> simp_all [shipEmpty]

lemma shipStep_id (seg : String) (st : Shipment × List String)
    (h : isShipBodySeg seg = false) : shipStep seg st = st := by
  have h1 : pyStartsWith seg "NAD+CN" = false := by
    by_contra hc; rw [Bool.not_eq_false] at hc; simp [isShipBodySeg, hc] at h
  have h2 : pyStartsWith seg "RFF+CR" = false := by
    by_contra hc; rw [Bool.not_eq_false] at hc; simp [isShipBodySeg, hc] at h
  have h3 : pyStartsWith seg "RFF+TB" = false := by
    by_contra hc; rw [Bool.not_eq_false] at hc; simp [isShipBodySeg, hc] at h
  have h4 : pyStartsWith seg "RFF+TE" = false := by
    by_contra hc; rw [Bool.not_eq_false] at hc; simp [isShipBodySeg, hc] at h
  have h5 : pyStartsWith seg "DTM+17" = false := by
    by_contra hc; rw [Bool.not_eq_false] at hc; simp [isShipBodySeg, hc] at h
  have h6 : pyStartsWith seg "MEA+WX+B+KG" = false := by
    by_contra hc; rw [Bool.not_eq_false] at hc; simp [isShipBodySeg, hc] at h
  have h7 : pyStartsWith seg "DIM+2+CMT" = false := by
    by_contra hc; rw [Bool.not_eq_false] at hc; simp [isShipBodySeg, hc] at h
  have h8 : pyStartsWith seg "RFF+VP" = false := by
    by_contra hc; rw [Bool.not_eq_false] at hc; simp [isShipBodySeg, hc] at h
  simp [shipStep, h1, h2, h3, h4, h5, h6, h7, h8]

set_option maxHeartbeats 1000000 in
lemma shipStep_snd (seg : String) (st : Shipment × List String)
    (h : pyStartsWith seg "RFF+VP" = false) : (shipStep seg st).2 = st.2 := by
  simp only [shipStep]
  split_ifs <;> simp_all

lemma openShip_nonempty (seg : String) (h : 2 < (pySplit '+' seg).length) :
    shipEmpty (openShip seg) = false := by
  simp [openShip, h, shipEmpty]

lemma openCount_cons_open {seg : String} {rest : List String}
    (h : isOpenSeg seg = true) : openCount (seg :: rest) = openCount rest + 1 := by
  simp [openCount, List.filter_cons, h]

lemma openCount_cons_not {seg : String} {rest : List String}
    (h : isOpenSeg seg = false) : openCount (seg :: rest) = openCount rest := by
  simp [openCount, List.filter_cons, h]

lemma shipGo_length_of_nonempty (segs : List String) :
    ∀ (cur : Shipment) (items : List String),
      (∀ seg ∈ segs, isOpenSeg seg = true → 2 < (pySplit '+' seg).length) →
      shipEmpty cur = false →
      (shipGo segs cur items).length = openCount segs + 1 := by
  induction segs with
  | nil =>
    intro cur items _ hne
    simp [shipGo, hne, openCount]
  | cons seg rest ih =>
    intro cur items h1 hne
    by_cases hop : isOpenSeg seg = true
    · have h3 : 2 < (pySplit '+' seg).length := h1 seg (by simp) hop
      have hne2 := openShip_nonempty seg h3
      have hrec := ih (openShip seg) []
        (fun s hs ho => h1 s (List.mem_cons_of_mem _ hs) ho) hne2
      simp [shipGo, hop, hne, openCount_cons_open hop, hrec]
    · have hop2 : isOpenSeg seg = false := by simpa using hop
      have hne2 := shipStep_fst_nonempty seg cur items hne
      have hrec := ih (shipStep seg (cur, items)).1 (shipStep seg (cur, items)).2
        (fun s hs ho => h1 s (List.mem_cons_of_mem _ hs) ho) hne2
      simp [shipGo, hop2, openCount_cons_not hop2, hrec]

lemma shipGo_length_from_empty (segs : List String) :
    (∀ seg ∈ segs, isOpenSeg seg = true → 2 < (pySplit '+' seg).length) →
    (∀ seg ∈ segs.takeWhile (fun s => !isOpenSeg s), isShipBodySeg seg = false) →
    ∀ items : List String, (shipGo segs {} items).length = openCount segs := by
  induction segs with
  | nil =>
    intro _ _ items
    simp [shipGo, shipEmpty_default, openCount]
  | cons seg rest ih =>
    intro h1 h2 items
    by_cases hop : isOpenSeg seg = true
    · have h3 : 2 < (pySplit '+' seg).length := h1 seg (by simp) hop
      have hne2 := openShip_nonempty seg h3
      have hrec := shipGo_length_of_nonempty rest (openShip seg) items
        (fun s hs ho => h1 s (List.mem_cons_of_mem _ hs) ho) hne2
      simp [shipGo, hop, shipEmpty_default, openCount_cons_open hop, hrec]
    · have hop2 : isOpenSeg seg = false := by simpa using hop
      have hbody : isShipBodySeg seg = false :=
        h2 seg (by simp [List.takeWhile_cons, hop2])
      have h2r : ∀ s ∈ rest.takeWhile (fun s => !isOpenSeg s), isShipBodySeg s = false := by
        intro s hs
        exact h2 s (by simp [List.takeWhile_cons, hop2, hs])
      have hid := shipStep_id seg ({}, items) hbody
      have hrec := ih (fun s hs ho => h1 s (List.mem_cons_of_mem _ hs) ho) h2r items
      simp [shipGo, hop2, hid, openCount_cons_not hop2, hrec]

lemma shipGo_items_of_nonempty (segs : List String) :
    ∀ (cur : Shipment) (items : List String),
      (∀ seg ∈ segs, isOpenSeg seg = true → 2 < (pySplit '+' seg).length) →
      shipEmpty cur = false →
      (shipGo segs cur items).map (fun sh => sh.items)
        = (specItemLists segs (some items)).map some := by
  induction segs with
  | nil =>
    intro cur items _ hne
    simp [shipGo, hne, specItemLists, flushShip]
  | cons seg rest ih =>
    intro cur items h1 hne
    by_cases hop : isOpenSeg seg = true
    · have h3 : 2 < (pySplit '+' seg).length := h1 seg (by simp) hop
      have hne2 := openShip_nonempty seg h3
      have hrec := ih (openShip seg) []
        (fun s hs ho => h1 s (List.mem_cons_of_mem _ hs) ho) hne2
      simp [shipGo, hop, hne, specItemLists, flushShip, hrec]
    · have hop2 : isOpenSeg seg = false := by simpa using hop
      by_cases hvp : pyStartsWith seg "RFF+VP" = true
      · have f1 : pyStartsWith seg "NAD+CN" = false :=
          pyStartsWith_excl seg "RFF+VP" "NAD+CN" hvp (by decide) (by decide)
        have f2 : pyStartsWith seg "RFF+CR" = false :=
          pyStartsWith_excl seg "RFF+VP" "RFF+CR" hvp (by decide) (by decide)
        have f3 : pyStartsWith seg "RFF+TB" = false :=
          pyStartsWith_excl seg "RFF+VP" "RFF+TB" hvp (by decide) (by decide)
        have f4 : pyStartsWith seg "RFF+TE" = false :=
          pyStartsWith_excl seg "RFF+VP" "RFF+TE" hvp (by decide) (by decide)
        have f5 : pyStartsWith seg "DTM+17" = false :=
          pyStartsWith_excl seg "RFF+VP" "DTM+17" hvp (by decide) (by decide)
        have f6 : pyStartsWith seg "MEA+WX+B+KG" = false :=
          pyStartsWith_excl seg "RFF+VP" "MEA+WX+B+KG" hvp (by decide) (by decide)
        have f7 : pyStartsWith seg "DIM+2+CMT" = false :=
          pyStartsWith_excl seg "RFF+VP" "DIM+2+CMT" hvp (by decide) (by decide)
        have hrec := ih cur
          (if 2 < (pySplit '+' seg).length then items ++ [(pySplit '+' seg).getD 2 ""]
           else items)
          (fun s hs ho => h1 s (List.mem_cons_of_mem _ hs) ho) hne
        simp [shipGo, hop2, shipStep, f1, f2, f3, f4, f5, f6, f7, hvp,
          specItemLists]
        simpa using hrec
      · have hvp2 : pyStartsWith seg "RFF+VP" = false := by simpa using hvp
        have hsnd := shipStep_snd seg (cur, items) hvp2
        have hne2 := shipStep_fst_nonempty seg cur items hne
        have hrec := ih (shipStep seg (cur, items)).1 items
          (fun s hs ho => h1 s (List.mem_cons_of_mem _ hs) ho) hne2
        simp only [shipGo, hop2, Bool.false_eq_true, if_false, hsnd]
        rw [hrec]
        simp [specItemLists, hop2, hvp2]

lemma shipGo_items_from_empty (segs : List String) :
    (∀ seg ∈ segs, isOpenSeg seg = true → 2 < (pySplit '+' seg).length) →
    (∀ seg ∈ segs.takeWhile (fun s => !isOpenSeg s), isShipBodySeg seg = false) →
    (shipGo segs {} []).map (fun sh => sh.items)
      = (specItemLists segs none).map some := by
  induction segs with
  | nil =>
    intro _ _
    simp [shipGo, shipEmpty_default, specItemLists]
  | cons seg rest ih =>
    intro h1 h2
    by_cases hop : isOpenSeg seg = true
    · have h3 : 2 < (pySplit '+' seg).length := h1 seg (by simp) hop
      have hne2 := openShip_nonempty seg h3
      have hrec := shipGo_items_of_nonempty rest (openShip seg) []
        (fun s hs ho => h1 s (List.mem_cons_of_mem _ hs) ho) hne2
      simp [shipGo, hop, shipEmpty_default, specItemLists, hrec]
    · have hop2 : isOpenSeg seg = false := by simpa using hop
      have hbody : isShipBodySeg seg = false :=
        h2 seg (by simp [List.takeWhile_cons, hop2])
      have hvp2 : pyStartsWith seg "RFF+VP" = false := by
        by_contra hc
        rw [Bool.not_eq_false] at hc
        simp [isShipBodySeg, hc] at hbody
      have h2r : ∀ s ∈ rest.takeWhile (fun s => !isOpenSeg s),
          isShipBodySeg s = false := by
        intro s hs
        exact h2 s (by simp [List.takeWhile_cons, hop2, hs])
      have hid := shipStep_id seg ({}, []) hbody
      have hrec := ih (fun s hs ho => h1 s (List.mem_cons_of_mem _ hs) ho) h2r
      simp [shipGo, hop2, hid, specItemLists, hvp2, hrec]

lemma shipGo_items_isSome (segs : List String) :
    ∀ (cur : Shipment) (items : List String) (sh : Shipment),
      sh ∈ shipGo segs cur items → sh.items.isSome = true := by
  induction segs with
  | nil =>
    intro cur items sh hm
    by_cases hne : shipEmpty cur = true
    · simp [shipGo, hne] at hm
    · have hne2 : shipEmpty cur = false := by simpa using hne
      simp [shipGo, hne2] at hm
      simp [hm, flushShip]
  | cons seg rest ih =>
    intro cur items sh hm
    by_cases hop : isOpenSeg seg = true
    · by_cases hne : shipEmpty cur = true
      · simp [shipGo, hop, hne] at hm
        exact ih _ _ sh hm
      · have hne2 : shipEmpty cur = false := by simpa using hne
        simp [shipGo, hop, hne2] at hm
        rcases hm with hm | hm
        · simp [hm, flushShip]
        · exact ih _ _ sh hm
    · have hop2 : isOpenSeg seg = false := by simpa using hop
      simp [shipGo, hop2] at hm
      exact ih _ _ sh hm

lemma shipments_of_parse (data : String) (doc : Doc)
    (hp : parse_iftmin data = some doc) :
    doc.shipments = parse_shipments (tokenize data) := by
  simp only [parse_iftmin] at hp
  rcases hh : parse_header (tokenize data) with _ | h
  · rw [hh] at hp
    simp at hp
  · rw [hh] at hp
    simp only [Option.some.injEq] at hp
    rw [← hp]

/-- C1 counterexample: the claimed equality between the number of
shipments and the number of recognized opening segments fails in both
directions.  A lone opening segment with no third field leaves the
accumulator dict empty, so nothing is appended (one open, zero
shipments); and a shipment-field segment with no preceding opening
segment makes the accumulator truthy, so the trailing flush appends a
pseudo-shipment (zero opens, one shipment). -/
theorem c1_counterexample :
    (openCount (tokenize "GID+1") = 1 ∧
      (parse_iftmin "GID+1").map (fun d => d.shipments.length) = some 0) ∧
    (openCount (tokenize "RFF+CR+A") = 0 ∧
      (parse_iftmin "RFF+CR+A").map (fun d => d.shipments.length) = some 1) := by
  decide

/-- C1 (amended): for every input in which every recognized opening
segment carries at least three plus-separated fields and in which no
shipment-field segment precedes the first opening segment, the length
of the shipments sequence of the parsed Document equals the number of
recognized opening segments, consecutive opens included. -/
theorem c1_shipment_count_amended (data : String) (doc : Doc)
    (hp : parse_iftmin data = some doc)
    (h1 : ∀ seg ∈ tokenize data, isOpenSeg seg = true → 2 < (pySplit '+' seg).length)
    (h2 : ∀ seg ∈ (tokenize data).takeWhile (fun s => !isOpenSeg s),
        isShipBodySeg seg = false) :
    doc.shipments.length = openCount (tokenize data) := by
  rw [shipments_of_parse data doc hp]
  exact shipGo_length_from_empty (tokenize data) h1 h2 []

/-- C1 witness: the amended count theorem applied to a concrete message
with two opening segments. -/
theorem c1_witness :
    ({ header := {}, parties := {},
       shipments := [{ total_packages := some "5", items := some ["A"] },
                     { total_packages := some "1", items := some ["B"] }],
       summary := {} } : Doc).shipments.length
      = openCount (tokenize "GID+1+5:PK\nRFF+VP+A\nGID+2+1:PK\nRFF+VP+B") :=
  c1_shipment_count_amended "GID+1+5:PK\nRFF+VP+A\nGID+2+1:PK\nRFF+VP+B" _
    (by decide) (by decide) (by decide)

/-- C2: the header extractor is NOT total.  On a UNB segment with three
plus-separated fields the source reads `parts[3]` without a guard and
raises `IndexError`, so the parse aborts instead of returning a
Document; the modelled parse returns `none` there. -/
theorem c2_unb_short_raises :
    (pySplit '+' "UNB+A+B").length = 3 ∧ parse_iftmin "UNB+A+B" = none := by
  decide

/-- C3 counterexample: an item reference read while no shipment is open
is not always dropped.  With no opening segment at all, a prior
shipment-field segment makes the accumulator truthy and the item ends
up in the flushed pseudo-shipment; and an item read under an opening
segment with an empty accumulator survives the next open (the item
accumulator is only reset inside the guarded flush) and lands in the
NEXT shipment. -/
theorem c3_counterexample :
    (openCount (tokenize "RFF+CR+A\nRFF+VP+X") = 0 ∧
      (parse_iftmin "RFF+CR+A\nRFF+VP+X").map
          (fun d => d.shipments.map (fun sh => sh.items)) = some [some ["X"]]) ∧
    (openCount (tokenize "GID+1\nRFF+VP+X\nGID+1+5:PK") = 2 ∧
      (parse_iftmin "GID+1\nRFF+VP+X\nGID+1+5:PK").map
          (fun d => d.shipments.map (fun sh => sh.items)) = some [some ["X"]]) := by
  decide

/-- C3 (amended): under the same preconditions as the amended C1 (every
opening segment has at least three fields; no shipment-field segment
before the first open), the item lists of the output shipments are
exactly those assigned by the specification state machine: each item
identifier belongs to the shipment open when its RFF+VP segment was
read, and item references before any open are dropped. -/
theorem c3_item_attribution_amended (data : String) (doc : Doc)
    (hp : parse_iftmin data = some doc)
    (h1 : ∀ seg ∈ tokenize data, isOpenSeg seg = true → 2 < (pySplit '+' seg).length)
    (h2 : ∀ seg ∈ (tokenize data).takeWhile (fun s => !isOpenSeg s),
        isShipBodySeg seg = false) :
    doc.shipments.map (fun sh => sh.items)
      = (specItemLists (tokenize data) none).map some := by
  rw [shipments_of_parse data doc hp]
  exact shipGo_items_from_empty (tokenize data) h1 h2

/-- C3 witness: the amended attribution theorem applied to a concrete
one-shipment message. -/
theorem c3_witness :
    ({ header := {}, parties := {},
       shipments := [{ total_packages := some "1", items := some ["Z"] }],
       summary := {} } : Doc).shipments.map (fun sh => sh.items)
      = (specItemLists (tokenize "GID+2+1:PK\nRFF+VP+Z") none).map some :=
  c3_item_attribution_amended "GID+2+1:PK\nRFF+VP+Z" _
    (by decide) (by decide) (by decide)

/-- C4 counterexample: the date decoder is not idempotent on a
well-formed 8-digit input.  Its output is 10 characters long, so a
second application re-slices the already formatted date. -/
theorem c4_counterexample :
    "20251017".length = 8 ∧ "20251017".data.all Char.isDigit = true ∧
    format_date "20251017" = "17.10.2025" ∧
    format_date (format_date "20251017") = "20.0..17.1" ∧
    format_date (format_date "20251017") ≠ format_date "20251017" := by
  decide

/-- C4 (amended): the date decoder is a total function that is the
identity on every input shorter than 8 characters; it is not idempotent
on 8-digit inputs. -/
theorem c4_identity_under_8_amended (s : String) (h : s.length < 8) :
    format_date s = s := by
  unfold format_date
  rw [if_neg (by omega)]

/-- C4 witness: the identity on a short input. -/
theorem c4_witness : format_date "2025" = "2025" :=
  c4_identity_under_8_amended "2025" (by decide)

/-- C5 counterexample: an open shipment CAN be lost at end of stream.
An opening segment with no third field leaves the accumulator dict
empty, the trailing `if current_shipment:` is false, and nothing is
appended although a shipment was opened. -/
theorem c5_counterexample :
    openCount (tokenize "GID+2") = 1 ∧
    (parse_iftmin "GID+2").map (fun d => d.shipments.length) = some 0 := by
  decide

/-- C5 (amended): at end of stream the aggregator appends the
accumulated record, with the item list attached, exactly as on a new
open event — but only when the accumulated record is nonempty; an open
shipment whose record has no field set by end of stream is dropped
together with its accumulated items. -/
theorem c5_flush_nonempty_amended (cur : Shipment) (items : List String)
    (s : String) (rest : List String)
    (hne : shipEmpty cur = false) (hs : isOpenSeg s = true) :
    shipGo [] cur items = [flushShip cur items] ∧
    shipGo (s :: rest) cur items
      = flushShip cur items :: shipGo rest (openShip s) [] := by
  constructor
  · simp [shipGo, hne]
  · simp [shipGo, hs, hne]

/-- C5 witness: the amended flush theorem at a concrete nonempty
accumulator and a concrete opening segment. -/
theorem c5_witness :
    shipGo [] ({ tracking_number := some "T" } : Shipment) ["I"]
        = [flushShip { tracking_number := some "T" } ["I"]] ∧
    shipGo ["GID+1"] ({ tracking_number := some "T" } : Shipment) ["I"]
        = flushShip { tracking_number := some "T" } ["I"]
            :: shipGo [] (openShip "GID+1") [] :=
  c5_flush_nonempty_amended _ _ _ _ (by decide) (by decide)

/-- C6: for every field list with fewer than 10 fields and every
default name, the address decoder returns (it is a total function) and
every attribute whose positional source field lies beyond the available
field count is absent from the result. -/
theorem c6_short_address_fields_absent (parts : List String) (d : String)
    (h : parts.length < 10) :
    (parse_address parts d).country = none ∧
    (parts.length < 9 → (parse_address parts d).postal_code = none) ∧
    (parts.length < 8 → (parse_address parts d).district = none) ∧
    (parts.length < 7 → (parse_address parts d).city = none) ∧
    (parts.length < 6 → (parse_address parts d).street = none) ∧
    (parts.length < 5 → (parse_address parts d).name = none) := by
  refine ⟨?_, fun h9 => ?_, fun h8 => ?_, fun h7 => ?_, fun h6 => ?_, fun h5 => ?_⟩ <;>
    simp only [parse_address] <;> rw [if_neg (by omega)]

/-- C6 witness: the absence theorem at a concrete two-field list. -/
theorem c6_witness :
    (parse_address ["NAD", "CN"] "D").country = none ∧
    (["NAD", "CN"].length < 9 → (parse_address ["NAD", "CN"] "D").postal_code = none) ∧
    (["NAD", "CN"].length < 8 → (parse_address ["NAD", "CN"] "D").district = none) ∧
    (["NAD", "CN"].length < 7 → (parse_address ["NAD", "CN"] "D").city = none) ∧
    (["NAD", "CN"].length < 6 → (parse_address ["NAD", "CN"] "D").street = none) ∧
    (["NAD", "CN"].length < 5 → (parse_address ["NAD", "CN"] "D").name = none) :=
  c6_short_address_fields_absent ["NAD", "CN"] "D" (by decide)

/-- C7: for shipper and invoicee party segments with at least five
fields, the parties extractor builds the Address with the fixed default
display name, and that name equals the default exactly on the
empty-string branch of the raw fifth field: blank field gives the
default, non-blank field gives the raw value even when it differs from
the default. -/
theorem c7_default_name_on_blank (sf iv : String)
    (hsf : pyStartsWith sf "NAD+SF" = true) (hiv : pyStartsWith iv "NAD+IV" = true)
    (h5 : 5 ≤ (pySplit '+' sf).length) (h6 : 5 ≤ (pySplit '+' iv).length) :
    (parse_parties [sf]).shipper = some (parse_address (pySplit '+' sf) "WTAM") ∧
    (parse_address (pySplit '+' sf) "WTAM").name
      = some (if (pySplit '+' sf).getD 4 "" = "" then "WTAM"
              else (pySplit '+' sf).getD 4 "") ∧
    (parse_parties [iv]).invoicee = some (parse_address (pySplit '+' iv) "AMAZON EU SARL") ∧
    (parse_address (pySplit '+' iv) "AMAZON EU SARL").name
      = some (if (pySplit '+' iv).getD 4 "" = "" then "AMAZON EU SARL"
              else (pySplit '+' iv).getD 4 "") := by
  have hnsf : pyStartsWith iv "NAD+SF" = false :=
    pyStartsWith_excl iv "NAD+IV" "NAD+SF" hiv (by decide) (by decide)
  refine ⟨?_, ?_, ?_, ?_⟩
  · simp [parse_parties, partiesStep, hsf]
  · simp [parse_address, h5]
  · simp [parse_parties, partiesStep, hnsf, hiv]
  · simp [parse_address, h6]

/-- C7 witness: the default-name theorem at a shipper segment with a
blank fifth field and an invoicee segment with a non-blank fifth
field. -/
theorem c7_witness :
    (parse_parties ["NAD+SF+A+B+"]).shipper
        = some (parse_address (pySplit '+' "NAD+SF+A+B+") "WTAM") ∧
    (parse_address (pySplit '+' "NAD+SF+A+B+") "WTAM").name
        = some (if (pySplit '+' "NAD+SF+A+B+").getD 4 "" = "" then "WTAM"
                else (pySplit '+' "NAD+SF+A+B+").getD 4 "") ∧
    (parse_parties ["NAD+IV+A+B+NM"]).invoicee
        = some (parse_address (pySplit '+' "NAD+IV+A+B+NM") "AMAZON EU SARL") ∧
    (parse_address (pySplit '+' "NAD+IV+A+B+NM") "AMAZON EU SARL").name
        = some (if (pySplit '+' "NAD+IV+A+B+NM").getD 4 "" = "" then "AMAZON EU SARL"
                else (pySplit '+' "NAD+IV+A+B+NM").getD 4 "") :=
  c7_default_name_on_blank "NAD+SF+A+B+" "NAD+IV+A+B+NM"
    (by decide) (by decide) (by decide) (by decide)

/-- C8: a dimension segment qualified metric-centimeters whose value
field carries the sub-fields 10.0, 50.0 and 12.0 yields the dimensions
string "10.0x50.0x12.0 cm" on the open shipment, and a dimension
segment with no sub-fields yields the empty string. -/
theorem c8_dimensions_concrete :
    (parse_iftmin "GID+1+5:PK\nDIM+2+CMT:10.0:50.0:12.0").map
        (fun d => d.shipments.map (fun sh => sh.dimensions))
      = some [some "10.0x50.0x12.0 cm"] ∧
    (parse_iftmin "GID+1+5:PK\nDIM+2+CMT").map
        (fun d => d.shipments.map (fun sh => sh.dimensions))
      = some [some ""] := by
  decide

/-- C9: whenever the parse returns a Document, every shipment record in
its shipments sequence carries an items key holding a list — the key is
never absent. -/
theorem c9_items_always_list (data : String) (doc : Doc)
    (hp : parse_iftmin data = some doc) :
    ∀ sh ∈ doc.shipments, sh.items.isSome = true := by
  intro sh hm
  rw [shipments_of_parse data doc hp] at hm
  exact shipGo_items_isSome (tokenize data) {} [] sh hm

/-- C9 witness: the items-present theorem at a concrete one-shipment
message. -/
theorem c9_witness :
    ({ total_packages := some "7", items := some ([] : List String) } : Shipment).items.isSome
      = true :=
  c9_items_always_list "GID+1+7:PK"
    { header := {}, parties := {},
      shipments := [{ total_packages := some "7", items := some [] }], summary := {} }
    (by decide) _ (by decide)

/-- C10: a consignee party segment with at least five fields and an
empty fifth field makes the aggregator store a consignee Address built
with the empty default name, whose name key is present and holds the
empty string. -/
theorem c10_consignee_empty_default (seg : String) (cur : Shipment)
    (items : List String) (rest : List String)
    (h : pyStartsWith seg "NAD+CN" = true)
    (h5 : 5 ≤ (pySplit '+' seg).length)
    (h4 : (pySplit '+' seg).getD 4 "" = "") :
    shipGo (seg :: rest) cur items
      = shipGo rest { cur with consignee := some (parse_address (pySplit '+' seg)) } items ∧
    (parse_address (pySplit '+' seg)).name = some "" := by
  have g1 : pyStartsWith seg "GID+1" = false :=
    pyStartsWith_excl seg "NAD+CN" "GID+1" h (by decide) (by decide)
  have g2 : pyStartsWith seg "GID+2" = false :=
    pyStartsWith_excl seg "NAD+CN" "GID+2" h (by decide) (by decide)
  have hop2 : isOpenSeg seg = false := by simp [isOpenSeg, g1, g2]
  constructor
  · simp [shipGo, hop2, shipStep, h]
  · simp [parse_address, h5, h4]
    simpa using h4

/-- C10 witness: the consignee theorem at a concrete segment with an
empty fifth field. -/
theorem c10_witness :
    shipGo ["NAD+CN+A++"] ({} : Shipment) []
      = shipGo [] { ({} : Shipment) with
          consignee := some (parse_address (pySplit '+' "NAD+CN+A++")) } [] ∧
    (parse_address (pySplit '+' "NAD+CN+A++")).name = some "" :=
  c10_consignee_empty_default "NAD+CN+A++" {} [] [] (by decide) (by decide) (by decide)

end IFTMIN
